import Mathlib

/-!
Shallow embedding of the bracket-tournament engine of the musicdata
repository (src/database.py game functions and src/main.py game endpoints).

The relational store is modelled as in-memory lists kept in insertion
order (SQLite rowid order); `SELECT ... .first()` becomes `List.find?`,
`order_by` becomes a stable insertion sort, and the autoincrement primary
key of `gamematch` becomes an explicit counter.  Python truthiness tests
on optional string columns (`if m.winner_track_id`, `or ""`) are modelled
explicitly.  The nondeterministic `random.sample` of `start_game` is
modelled by passing the sampled list as a parameter, constrained by the
sampling postconditions (length `min
 (pool.length) 8`, members drawn from the pool).
-/

namespace MusicData

/-- A row of the `track` table (columns the game engine reads; CRUD-only
columns such as timestamps, genre and duration are omitted). -/
structure Track where
  artist_id : String
  track_id : String
  track_number : Nat
  track_name : String
  preview_url : Option String
  artwork_url_600 : Option String
  deriving Repr, DecidableEq

/-- A row of the `gamesession` table. -/
structure GameSession where
  game_id : String
  user_session_id : String
  artist_id : String
  status : String
  winner_track_id : Option String
  winner_track_name : Option String
  winner_artwork_url : Option String
  total_rounds : Nat
  deriving Repr, DecidableEq

/-- A row of the `gamematch` table. -/
structure GameMatch where
  id : Nat
  game_session_id : String
  round_number : Nat
  match_number : Nat
  track_id_1 : String
  track_name_1 : String
  artwork_url_1 : String
  track_id_2 : String
  track_name_2 : String
  artwork_url_2 : String
  winner_track_id : Option String
  loser_track_id : Option String
  deriving Repr, DecidableEq

/-- The database: each table as a list in insertion (rowid) order, plus
the autoincrement counter for `gamematch.id`. -/
structure DB where
  tracks : List Track
  sessions : List GameSession
  game_matches : List GameMatch
  next_match_id : Nat
  deriving Repr, DecidableEq

/-- Python truthiness of an optional string column (None and "" are falsy). -/
def truthy : Option String → Bool
  | none => false
  | some s => !(s == "")

/-- `if o:` comprehension filter: keep the value only when truthy. -/
def truthyVal : Option String → Option String
  | none => none
  | some s => if s == "" then none else some s

/-- Stable insertion of `a` into `l` under comparator `le`: `a` goes in
front of the first element it compares `le` to (ties keep earlier list
elements first, matching a stable `ORDER BY`). -/
def insertLe (le : α → α → Bool) (a : α) : List α → List α
  | [] => [a]
  | b :: l => if le a b then a :: b :: l else b :: insertLe le a l

/-- Stable insertion sort, modelling `ORDER BY` on rows produced in
insertion order. -/
def sortLe (le : α → α → Bool) : List α → List α
  | [] => []
  | a :: l => insertLe le a (sortLe le l)

/-- `select(Track).where(Track.track_id == tid).first()`. -/
def firstTrack (db : DB) (tid : String) : Option Track :=
  db.tracks.find? (fun t => t.track_id == tid)

/-- Last row of the track store with the given id: the value a Python
dict comprehension keyed on `track_id` retains after overwrites. -/
def lastTrack (db : DB) (tid : String) : Option Track :=
  (db.tracks.filter (fun t => t.track_id == tid)).getLast?

/-- `get_game_session` (database.py): first session row with this game id. -/
def get_game_session (db : DB) (gid : String) : Option GameSession :=
  db.sessions.find? (fun s => s.game_id == gid)

/-- First match row with the given primary key. -/
def findMatchById (db : DB) (mid : Nat) : Option GameMatch :=
  db.game_matches.find? (fun m => m.id == mid)

/-- Replace the first session row whose game id matches with `g2`
(SQLAlchemy mutates the fetched ORM row in place). -/
def updateFirstSession (gid : String) (g2 : GameSession) : List GameSession → List GameSession
  | [] => []
  | s :: rest =>
    if s.game_id == gid then g2 :: rest else s :: updateFirstSession gid g2 rest

/-- Replace the first match row with the given primary key by `m2`. -/
def updateFirstMatch (mid : Nat) (m2 : GameMatch) : List GameMatch → List GameMatch
  | [] => []
  | m :: rest =>
    if m.id == mid then m2 :: rest else m :: updateFirstMatch mid m2 rest

/-- `get_all_artist_tracks` (database.py): all tracks of the artist,
ordered by track number. -/
def get_all_artist_tracks (db : DB) (artist_id : String) : List Track :=
  sortLe (fun a b => decide (a.track_number ≤ b.track_number))
    (db.tracks.filter (fun t => t.artist_id == artist_id))

/-- `create_game_session` (database.py): insert a fresh active session.
The `uuid4` game id is passed in as a parameter. -/
def create_game_session (db : DB) (game_id user_session_id artist_id : String) : DB :=
  { db with sessions := db.sessions ++
      [{ game_id := game_id, user_session_id := user_session_id,
         artist_id := artist_id, status := "active",
         winner_track_id := none, winner_track_name := none,
         winner_artwork_url := none, total_rounds := 3 }] }

/-- The `GameMatch` row built by `create_game_match` (database.py),
snapshotting both tracks (`artwork_url_600 or ""`). -/
def mkCreatedMatch (id : Nat) (gid : String) (round mnum : Nat) (t1 t2 : Track) : GameMatch :=
  { id := id, game_session_id := gid, round_number := round, match_number := mnum,
    track_id_1 := t1.track_id, track_name_1 := t1.track_name,
    artwork_url_1 := t1.artwork_url_600.getD "",
    track_id_2 := t2.track_id, track_name_2 := t2.track_name,
    artwork_url_2 := t2.artwork_url_600.getD "",
    winner_track_id := none, loser_track_id := none }

/-- `create_game_match` (database.py): insert one bracket match. -/
def create_game_match (db : DB) (gid : String) (round mnum : Nat) (t1 t2 : Track) :
    DB × GameMatch :=
  let m := mkCreatedMatch db.next_match_id gid round mnum t1 t2
  ({ db with game_matches := db.game_matches ++ [m], next_match_id := db.next_match_id + 1 }, m)

/-- `record_match_winner` (database.py): looks the match up by primary
key only (the `game_id` argument is unused in the source), sets the
winner to the supplied id and the loser to `track_id_2` when the winner
equals `track_id_1`, otherwise to `track_id_1`. -/
def record_match_winner (db : DB) (game_id : String) (match_id : Nat)
    (winner_track_id : String) : DB × Option GameMatch :=
  match findMatchById db match_id with
  | none => (db, none)
  | some m =>
    let m2 := { m with
      winner_track_id := some winner_track_id,
      loser_track_id := some
        (if winner_track_id == m.track_id_1 then m.track_id_2 else m.track_id_1) }
    ({ db with game_matches := updateFirstMatch match_id m2 db.game_matches }, some m2)

/-- `get_game_matches` (database.py): matches of one round of one game,
ordered by match number. -/
def get_game_matches (db : DB) (gid : String) (round : Nat) : List GameMatch :=
  sortLe (fun a b => decide (a.match_number ≤ b.match_number))
    (db.game_matches.filter (fun m => m.game_session_id == gid && m.round_number == round))

/-- `get_all_game_matches` (database.py): every match of a game, ordered
by round number then match number. -/
def get_all_game_matches (db : DB) (gid : String) : List GameMatch :=
  sortLe (fun a b => decide (a.round_number < b.round_number ∨
      (a.round_number = b.round_number ∧ a.match_number ≤ b.match_number)))
    (db.game_matches.filter (fun m => m.game_session_id == gid))

/-- `finish_game_session` (database.py): mark the session completed; if
the winner id has a row in the track store (first row wins), copy its
id/name/artwork into the session, otherwise leave the winner fields as
they are. -/
def finish_game_session (db : DB) (game_id : String) (winner_track_id : String) :
    DB × Option GameSession :=
  match get_game_session db game_id with
  | none => (db, none)
  | some g =>
    let g1 := match firstTrack db winner_track_id with
      | some wt => { g with
          winner_track_id := some wt.track_id,
          winner_track_name := some wt.track_name,
          winner_artwork_url := wt.artwork_url_600 }
      | none => g
    let g2 := { g1 with status := "completed" }
    ({ db with sessions := updateFirstSession game_id g2 db.sessions }, some g2)

/-- The sequential pairing loop of `start_game` / `record_match`
(main.py): `for i in range(0, len(tracks), 2)` with
`track_2 = tracks[i+1] if i+1 < len(tracks) else tracks[0]`, where
`first` is `tracks[0]` of the full list. -/
def pairTracks (first : Track) : List Track → List (Track × Track)
  | [] => []
  | [t] => [(t, first)]
  | t1 :: t2 :: rest => (t1, t2) :: pairTracks first rest

/-- Sequential pairing of a whole list (odd leftover paired with the
head of the list). -/
def pairAll : List Track → List (Track × Track)
  | [] => []
  | t :: rest => pairTracks t (t :: rest)

/-- The match-creation loop shared by `start_game` and `record_match`
(main.py): creates one `GameMatch` per pair, numbering them
`mnum, mnum+1, ...` (the source computes `len(matches) + 1`). -/
def create_matches_loop (db : DB) (gid : String) (round : Nat) :
    List (Track × Track) → Nat → DB × List GameMatch
  | [], _ => (db, [])
  | p :: rest, mnum =>
    let step := create_game_match db gid round mnum p.1 p.2
    let next := create_matches_loop step.1 gid round rest (mnum + 1)
    (next.1, step.2 :: next.2)

/-- Outcome of `start_game` (main.py): either the error dict reporting
the available track count, or the created game with its round-1 matches. -/
inductive StartResult where
  | insufficient (available : Nat)
  | started (game_id : String) (round : Nat) (ms : List GameMatch)
  deriving Repr, DecidableEq

/-- `start_game` endpoint (main.py): requires at least 2 tracks for the
artist, creates a session, samples `min(n, 8)` tracks (the sample is a
parameter; see module comment) and pairs them into round-1 matches. -/
def start_game (db : DB) (session_id artist_id game_id : String)
    (sample : List Track) : DB × StartResult :=
  let all_tracks := get_all_artist_tracks db artist_id
  if all_tracks.length < 2 then
    (db, .insufficient all_tracks.length)
  else
    let db1 := create_game_session db game_id session_id artist_id
    let created := create_matches_loop db1 game_id 1 (pairAll sample) 1
    (created.1, .started game_id 1 created.2)

/-- Outcome of the `record_match` endpoint (main.py). -/
inductive RecordResult where
  | matchNotFound
  | gameNotFound
  | roundInProgress (current_round : Nat)
  | completed (winner_track_id : String)
  | nextRound (current_round : Nat) (ms : List GameMatch)
  deriving Repr, DecidableEq

/-- `record_match` endpoint (main.py): record the winner, then if every
match of that round has a (truthy) winner either finish the game (round
of one match) or build the next round from the winners in match order,
dropping winner ids that have no row in the track store (the dict
lookup `if wid in winner_tracks_dict`). -/
def record_match (db : DB) (game_id : String) (match_id : Nat)
    (winner_track_id : String) : DB × RecordResult :=
  let rec1 := record_match_winner db game_id match_id winner_track_id
  match rec1.2 with
  | none => (rec1.1, .matchNotFound)
  | some m =>
    let db1 := rec1.1
    match get_game_session db1 game_id with
    | none => (db1, .gameNotFound)
    | some _ =>
      let round_matches := get_game_matches db1 game_id m.round_number
      if round_matches.all (fun rm => truthy rm.winner_track_id) then
        if round_matches.length == 1 then
          let fin := finish_game_session db1 game_id winner_track_id
          (fin.1, .completed winner_track_id)
        else
          let winners := round_matches.filterMap (fun rm => rm.winner_track_id)
          let winner_tracks := winners.filterMap (fun wid => lastTrack db1 wid)
          let created := create_matches_loop db1 game_id (m.round_number + 1)
            (pairAll winner_tracks) 1
          (created.1, .nextRound (m.round_number + 1) created.2)
      else
        (db1, .roundInProgress m.round_number)

/-- Track data as shaped into a `GameTrack` response record (main.py). -/
structure GameTrack where
  track_id : String
  track_name : String
  artwork_url_600 : String
  preview_url : Option String
  deriving Repr, DecidableEq

/-- `GameTrack` built from a stored track row (`artwork_url_600 or ""`). -/
def toGameTrack (t : Track) : GameTrack :=
  { track_id := t.track_id, track_name := t.track_name,
    artwork_url_600 := t.artwork_url_600.getD "", preview_url := t.preview_url }

/-- Outcome of the `get_game_results` endpoint (main.py). -/
inductive ResultsResult where
  | gameNotFound
  | notCompleted
  | ok (game_id status winner_track_id winner_track_name winner_artwork_url : String)
      (winner_preview_url : Option String) (dismissed_tracks : List GameTrack)
  deriving Repr, DecidableEq

/-- `get_game_results` endpoint (main.py): for a completed game, the
winner fields (empty string when unset) and the dismissed tracks — the
store rows whose track id occurs among the (truthy) loser ids of the
game's matches. -/
def get_game_results (db : DB) (game_id : String) : ResultsResult :=
  match get_game_session db game_id with
  | none => .gameNotFound
  | some game =>
    if game.status == "completed" then
      let all_matches := get_all_game_matches db game_id
      let dismissed_ids := all_matches.filterMap (fun m => truthyVal m.loser_track_id)
      let dismissed_tracks :=
        if dismissed_ids.isEmpty then []
        else (db.tracks.filter (fun t => dismissed_ids.contains t.track_id)).map toGameTrack
      let winner_preview_url :=
        if truthy game.winner_track_id then
          match firstTrack db (game.winner_track_id.getD "") with
          | some wt => wt.preview_url
          | none => none
        else none
      .ok game.game_id game.status (game.winner_track_id.getD "")
        (game.winner_track_name.getD "") (game.winner_artwork_url.getD "")
        winner_preview_url dismissed_tracks
    else .notCompleted

/-- One engine operation applied to the store: a `start_game` call with
a sample satisfying the `random.sample` postconditions, or a
`record_match` call. (`get_game_results` reads the store without
changing it.) -/
inductive EngineStep : DB → DB → Prop where
  | start (db : DB) (sid aid gid : String) (sample : List Track)
      (hlen : sample.length = min (get_all_artist_tracks db aid).length 8)
      (hmem : ∀ t ∈ sample, t ∈ get_all_artist_tracks db aid) :
      EngineStep db (start_game db sid aid gid sample).1
  | record (db : DB) (gid : String) (mid : Nat) (w : String) :
      EngineStep db (record_match db gid mid w).1

/-- Default track value used when totalizing optional lookups. -/
def defaultTrack : Track :=
  { artist_id := "", track_id := "", track_number := 0, track_name := "",
    preview_url := none, artwork_url_600 := none }

/-- Concrete track row for executable scenarios. -/
def trackA : Track :=
  { artist_id := "ar", track_id := "A", track_number := 1, track_name := "na",
    preview_url := none, artwork_url_600 := some "ua" }

/-- Concrete track row for executable scenarios. -/
def trackB : Track :=
  { artist_id := "ar", track_id := "B", track_number := 2, track_name := "nb",
    preview_url := none, artwork_url_600 := some "ub" }

/-- Concrete track row for executable scenarios (no artwork). -/
def trackC : Track :=
  { artist_id := "ar", track_id := "C", track_number := 3, track_name := "nc",
    preview_url := none, artwork_url_600 := none }

/-- Concrete track row for executable scenarios. -/
def trackD : Track :=
  { artist_id := "ar", track_id := "D", track_number := 4, track_name := "nd",
    preview_url := none, artwork_url_600 := some "ud" }

/-- An undecided match row for executable scenarios. -/
def freshMatch (i : Nat) (g : String) (r n : Nat) (t1 t2 : String) : GameMatch :=
  { id := i, game_session_id := g, round_number := r, match_number := n,
    track_id_1 := t1, track_name_1 := "", artwork_url_1 := "",
    track_id_2 := t2, track_name_2 := "", artwork_url_2 := "",
    winner_track_id := none, loser_track_id := none }

/-- A fresh active session row for executable scenarios. -/
def activeSession (g : String) : GameSession :=
  { game_id := g, user_session_id := "u", artist_id := "ar", status := "active",
    winner_track_id := none, winner_track_name := none,
    winner_artwork_url := none, total_rounds := 3 }

/-- Store with two tracks of artist `ar` and no games yet. -/
def dbTwoTracks : DB :=
  { tracks := [trackA, trackB], sessions := [], game_matches := [], next_match_id := 1 }

/-- Store with three tracks of artist `ar` and no games yet. -/
def dbThreeTracks : DB :=
  { tracks := [trackA, trackB, trackC], sessions := [], game_matches := [], next_match_id := 1 }

/-- Reachable scenario, step 1: start a game over the three-track pool
with sample order `[A, B, C]` (round 1: `A` vs `B`, `C` vs `A`). -/
def stepStart : DB × StartResult :=
  start_game dbThreeTracks "u" "ar" "g" [trackA, trackB, trackC]

/-- Reachable scenario, step 2: `A` wins match 1 (loser `B`). -/
def stepR1 : DB × RecordResult := record_match stepStart.1 "g" 1 "A"

/-- Reachable scenario, step 3: `C` wins match 2 (loser `A`); the round
completes and round 2 pairs `A` vs `C` as match id 3. -/
def stepR2 : DB × RecordResult := record_match stepR1.1 "g" 2 "C"

/-- Reachable scenario, step 4: `C` wins the final (loser `A` again). -/
def stepR3 : DB × RecordResult := record_match stepR2.1 "g" 3 "C"

/-- Two games, one undecided match each; match id 2 belongs to game `g2`. -/
def dbCross : DB :=
  { tracks := [trackA, trackB], sessions := [activeSession "g1", activeSession "g2"],
    game_matches := [freshMatch 1 "g1" 1 1 "A" "B", freshMatch 2 "g2" 1 1 "A" "B"],
    next_match_id := 3 }

/-- One game with a single undecided match `A` vs `B`; both tracks stored. -/
def dbOneMatch : DB :=
  { tracks := [trackA, trackB], sessions := [activeSession "g"],
    game_matches := [freshMatch 1 "g" 1 1 "A" "B"], next_match_id := 2 }

/-- A decided round-1 match row: `A` beat `B`. -/
def decidedMatchAB : GameMatch :=
  { freshMatch 1 "g" 1 1 "A" "B" with
    winner_track_id := some "A", loser_track_id := some "B" }

/-- One game whose round 1 has matches (`A` vs `B`, decided) and
(`C` vs `D`, undecided); all four tracks stored. -/
def dbRoundOfTwo : DB :=
  { tracks := [trackA, trackB, trackC, trackD], sessions := [activeSession "g"],
    game_matches := [decidedMatchAB, freshMatch 2 "g" 1 2 "C" "D"], next_match_id := 3 }

/-- The session row of `dbOneMatch` after its single match is decided
with winner A. -/
def finishedSessionA : GameSession :=
  { activeSession "g" with
      status := "completed",
      winner_track_id := some "A",
      winner_track_name := some "na",
      winner_artwork_url := some "ua" }

/-- The session row of the three-track scenario after `C` wins the
final. -/
def finishedSessionC : GameSession :=
  { activeSession "g" with
      status := "completed",
      winner_track_id := some "C",
      winner_track_name := some "nc",
      winner_artwork_url := none }

/-- One game with a single undecided match whose tracks are absent from
the track store. -/
def dbNoStore : DB :=
  { tracks := [], sessions := [activeSession "g"],
    game_matches := [freshMatch 1 "g" 1 1 "A" "B"], next_match_id := 2 }

/-! ### Helper lemmas -/

theorem pairTracks_length (first : Track) : (l : List Track) →
    (pairTracks first l).length = (l.length + 1) / 2
  | [] => rfl
  | [_] => by simp [pairTracks]
  | _ :: _ :: rest => by
    simp only [pairTracks, List.length_cons, pairTracks_length first rest]
    omega

theorem pairAll_length : (l : List Track) → (pairAll l).length = (l.length + 1) / 2
  | [] => rfl
  | t :: rest => pairTracks_length t (t :: rest)

theorem pairTracks_getElem? (first : Track) : (l : List Track) → (j : Nat) →
    (pairTracks first l)[j]? =
      match l[2 * j]?, l[2 * j + 1]? with
      | some a, some b => some (a, b)
      | some a, none => some (a, first)
      | none, _ => none
  | [], j => by simp [pairTracks]
  | [t], 0 => by simp [pairTracks]
  | [t], j + 1 => by
    have h : ([t] : List Track)[2 * (j + 1)]? = none :=
      List.getElem?_eq_none (by simp; omega)
    simp [pairTracks, h]
  | t1 :: t2 :: rest, 0 => by simp [pairTracks]
  | t1 :: t2 :: rest, j + 1 => by
    have h1 : 2 * (j + 1) = 2 * j + 1 + 1 := by omega
    have h2 : 2 * (j + 1) + 1 = 2 * j + 1 + 1 + 1 := by omega
    rw [h2, h1]
    simp only [pairTracks, List.getElem?_cons_succ]
    exact pairTracks_getElem? first rest j

theorem pairAll_getElem? (t : Track) (rest : List Track) (j : Nat) :
    (pairAll (t :: rest))[j]? =
      match (t :: rest)[2 * j]?, (t :: rest)[2 * j + 1]? with
      | some a, some b => some (a, b)
      | some a, none => some (a, t)
      | none, _ => none :=
  pairTracks_getElem? t (t :: rest) j

theorem create_matches_loop_length (gid : String) (round : Nat) :
    (pairs : List (Track × Track)) → (db : DB) → (mnum : Nat) →
    (create_matches_loop db gid round pairs mnum).2.length = pairs.length
  | [], _, _ => rfl
  | _ :: rest, db, mnum => by
    simp only [create_matches_loop, List.length_cons]
    rw [create_matches_loop_length gid round rest _ (mnum + 1)]

theorem create_matches_loop_getElem? (gid : String) (round : Nat) :
    (pairs : List (Track × Track)) → (db : DB) → (mnum j : Nat) →
    (create_matches_loop db gid round pairs mnum).2[j]? =
      (pairs[j]?).map
        (fun p => mkCreatedMatch (db.next_match_id + j) gid round (mnum + j) p.1 p.2)
  | [], db, mnum, j => by simp [create_matches_loop]
  | p :: rest, db, mnum, 0 => by
    simp [create_matches_loop, create_game_match]
  | p :: rest, db, mnum, j + 1 => by
    simp only [create_matches_loop, List.getElem?_cons_succ]
    rw [create_matches_loop_getElem? gid round rest _ (mnum + 1) j]
    have h1 : (create_game_match db gid round mnum p.1 p.2).1.next_match_id
        = db.next_match_id + 1 := rfl
    rw [h1]
    have h2 : db.next_match_id + 1 + j = db.next_match_id + (j + 1) := by omega
    have h3 : mnum + 1 + j = mnum + (j + 1) := by omega
    rw [h2, h3]

theorem create_matches_loop_game_matches (gid : String) (round : Nat) :
    (pairs : List (Track × Track)) → (db : DB) → (mnum : Nat) →
    (create_matches_loop db gid round pairs mnum).1.game_matches =
      db.game_matches ++ (create_matches_loop db gid round pairs mnum).2
  | [], db, _ => by simp [create_matches_loop]
  | p :: rest, db, mnum => by
    simp only [create_matches_loop]
    rw [create_matches_loop_game_matches gid round rest _ (mnum + 1)]
    simp [create_game_match]

theorem create_matches_loop_sessions (gid : String) (round : Nat) :
    (pairs : List (Track × Track)) → (db : DB) → (mnum : Nat) →
    (create_matches_loop db gid round pairs mnum).1.sessions = db.sessions
  | [], _, _ => rfl
  | _ :: rest, db, mnum => by
    simp only [create_matches_loop]
    rw [create_matches_loop_sessions gid round rest _ (mnum + 1)]
    rfl

theorem create_matches_loop_tracks (gid : String) (round : Nat) :
    (pairs : List (Track × Track)) → (db : DB) → (mnum : Nat) →
    (create_matches_loop db gid round pairs mnum).1.tracks = db.tracks
  | [], _, _ => rfl
  | _ :: rest, db, mnum => by
    simp only [create_matches_loop]
    rw [create_matches_loop_tracks gid round rest _ (mnum + 1)]
    rfl

theorem filterMap_eq_map_of_forall (f : α → Option β) (g : α → β) :
    (l : List α) → (∀ x ∈ l, f x = some (g x)) → l.filterMap f = l.map g
  | [], _ => rfl
  | a :: l, h => by
    rw [List.filterMap_cons, List.map_cons, h a (List.mem_cons_self a l),
      filterMap_eq_map_of_forall f g l (fun x hx => h x (List.mem_cons_of_mem a hx))]

theorem find?_append_of_some (p : α → Bool) :
    (l1 l2 : List α) → (a : α) → l1.find? p = some a → (l1 ++ l2).find? p = some a
  | b :: l1, l2, a, h => by
    by_cases hb : p b
    · rw [List.find?_cons_of_pos _ hb] at h
      rw [List.cons_append, List.find?_cons_of_pos _ hb]
      exact h
    · rw [List.find?_cons_of_neg _ (by simpa using hb)] at h
      rw [List.cons_append, List.find?_cons_of_neg _ (by simpa using hb)]
      exact find?_append_of_some p l1 l2 a h

theorem find?_updateFirstSession_self (gid : String) (g2 : GameSession)
    (hg2 : g2.game_id = gid) :
    (l : List GameSession) → (l.find? (fun s => s.game_id == gid)).isSome →
    (updateFirstSession gid g2 l).find? (fun s => s.game_id == gid) = some g2
  | s :: rest, h => by
    by_cases hs : s.game_id == gid
    · rw [updateFirstSession, if_pos hs]
      rw [List.find?_cons_of_pos _ (by simp [hg2])]
    · rw [updateFirstSession, if_neg hs]
      rw [List.find?_cons_of_neg _ (by simpa using hs)]
      refine find?_updateFirstSession_self gid g2 hg2 rest ?_
      rwa [List.find?_cons_of_neg _ (by simpa using hs)] at h

theorem find?_updateFirstSession_ne (gid : String) (g2 : GameSession)
    (hg2 : g2.game_id = gid) (gid2 : String) (hne : gid2 ≠ gid) :
    (l : List GameSession) →
    (updateFirstSession gid g2 l).find? (fun s => s.game_id == gid2) =
      l.find? (fun s => s.game_id == gid2)
  | [] => rfl
  | s :: rest => by
    by_cases hs : s.game_id == gid
    · rw [updateFirstSession, if_pos hs]
      have hsid : s.game_id = gid := by simpa using hs
      have hga : (g2.game_id == gid2) = false := by
        simp only [hg2, beq_eq_false_iff_ne, ne_eq]
        exact fun h => hne h.symm
      have hgb : (s.game_id == gid2) = false := by
        simp only [hsid, beq_eq_false_iff_ne, ne_eq]
        exact fun h => hne h.symm
      simp only [List.find?_cons, hga, hgb]
    · rw [updateFirstSession, if_neg hs]
      by_cases h2 : s.game_id == gid2
      · simp only [List.find?_cons, h2]
      · have h2f : (s.game_id == gid2) = false := by simpa using h2
        simp only [List.find?_cons, h2f]
        exact find?_updateFirstSession_ne gid g2 hg2 gid2 hne rest

theorem mem_of_getLast?_eq (a : α) : (l : List α) → l.getLast? = some a → a ∈ l
  | [x], h => by
    simp only [List.getLast?_singleton, Option.some_inj] at h
    simp [h]
  | x :: y :: rest, h => by
    rw [List.getLast?_cons_cons] at h
    exact List.mem_cons_of_mem x (mem_of_getLast?_eq a (y :: rest) h)

theorem lastTrack_track_id (db : DB) (tid : String) (t : Track)
    (h : lastTrack db tid = some t) : t.track_id = tid := by
  have hmem := mem_of_getLast?_eq t _ h
  have := List.mem_filter.mp hmem
  simpa using this.2

theorem get_game_session_game_id (db : DB) (gid : String) (g : GameSession)
    (hg : get_game_session db gid = some g) : g.game_id = gid := by
  have h0 : db.sessions.find? (fun s => s.game_id == gid) = some g := hg
  have h := List.find?_some h0
  simpa using h

theorem get_game_session_isSome (db : DB) (gid : String) (g : GameSession)
    (hg : get_game_session db gid = some g) :
    (db.sessions.find? (fun s => s.game_id == gid)).isSome := by
  have h : db.sessions.find? (fun s => s.game_id == gid) = some g := hg
  rw [h]
  rfl

theorem record_match_completed_branch (db : DB) (gid : String) (mid : Nat) (w : String)
    (m : GameMatch) (g : GameSession)
    (hm : (record_match_winner db gid mid w).2 = some m)
    (hg : get_game_session (record_match_winner db gid mid w).1 gid = some g)
    (hall : (get_game_matches (record_match_winner db gid mid w).1 gid m.round_number).all
      (fun rm => truthy rm.winner_track_id) = true)
    (hone : (get_game_matches (record_match_winner db gid mid w).1 gid
      m.round_number).length = 1) :
    record_match db gid mid w =
      ((finish_game_session (record_match_winner db gid mid w).1 gid w).1,
        .completed w) := by
  simp [record_match, hm, hg, hall, hone]

theorem get_game_results_of_completed (db : DB) (gid : String) (g : GameSession)
    (hg : get_game_session db gid = some g) (hst : g.status = "completed") :
    get_game_results db gid = .ok g.game_id g.status (g.winner_track_id.getD "")
      (g.winner_track_name.getD "") (g.winner_artwork_url.getD "")
      (if truthy g.winner_track_id then
        match firstTrack db (g.winner_track_id.getD "") with
        | some wt => wt.preview_url
        | none => none
      else none)
      (if ((get_all_game_matches db gid).filterMap
          (fun x => truthyVal x.loser_track_id)).isEmpty then []
       else (db.tracks.filter (fun t => ((get_all_game_matches db gid).filterMap
          (fun x => truthyVal x.loser_track_id)).contains t.track_id)).map toGameTrack) := by
  have hcond : (g.status == "completed") = true := by simp [hst]
  simp only [get_game_results, hg, hcond, if_true]

theorem record_match_next_branch (db : DB) (gid : String) (mid : Nat) (w : String)
    (m : GameMatch) (g : GameSession)
    (hm : (record_match_winner db gid mid w).2 = some m)
    (hg : get_game_session (record_match_winner db gid mid w).1 gid = some g)
    (hall : (get_game_matches (record_match_winner db gid mid w).1 gid m.round_number).all
      (fun rm => truthy rm.winner_track_id) = true)
    (hne : ((get_game_matches (record_match_winner db gid mid w).1 gid
      m.round_number).length == 1) = false) :
    record_match db gid mid w =
      ((create_matches_loop (record_match_winner db gid mid w).1 gid (m.round_number + 1)
        (pairAll (((get_game_matches (record_match_winner db gid mid w).1 gid
            m.round_number).filterMap (fun rm => rm.winner_track_id)).filterMap
          (fun wid => lastTrack (record_match_winner db gid mid w).1 wid))) 1).1,
       .nextRound (m.round_number + 1)
        (create_matches_loop (record_match_winner db gid mid w).1 gid (m.round_number + 1)
          (pairAll (((get_game_matches (record_match_winner db gid mid w).1 gid
              m.round_number).filterMap (fun rm => rm.winner_track_id)).filterMap
            (fun wid => lastTrack (record_match_winner db gid mid w).1 wid))) 1).2) := by
  simp [record_match, hm, hg, hall, hne]

/-! ### Claim theorems -/

/-- C5: for every track pool with fewer than 2 entries, `start_game`
reports the insufficient-tracks error with the available track count and
leaves the store unchanged (no session is created). -/
theorem start_game_insufficient (db : DB) (sid aid gid : String) (sample : List Track)
    (h : (get_all_artist_tracks db aid).length < 2) :
    (start_game db sid aid gid sample).2 =
      .insufficient (get_all_artist_tracks db aid).length ∧
    (start_game db sid aid gid sample).1 = db := by
  simp [start_game, h]

/-- Witness for C5 at a store holding no tracks of the artist. -/
theorem start_game_insufficient_witness :
    (get_all_artist_tracks dbNoStore "ar").length < 2 ∧
    (start_game dbNoStore "u" "ar" "g" []).2 = .insufficient 0 ∧
    (start_game dbNoStore "u" "ar" "g" []).1 = dbNoStore := by
  have h := start_game_insufficient dbNoStore "u" "ar" "g" [] (by decide)
  exact ⟨by decide, by rw [h.1]; decide, h.2⟩

/-- C4 counterexample: recording the arbitrary id "Z" (neither
participant) on the match "A" vs "B" sets the loser to track_1 = "A",
not to track_2 = "B" as the claim states. -/
theorem record_match_winner_arbitrary_cex :
    ((record_match_winner dbOneMatch "g" 1 "Z").2.map
      (fun m => (m.loser_track_id, m.track_id_1, m.track_id_2)))
      = some (some "A", "A", "B") ∧
    ("Z" : String) ≠ "A" ∧ ("Z" : String) ≠ "B" ∧ ("A" : String) ≠ "B" :=
  ⟨by decide, by decide, by decide, by decide⟩

/-- C4 (amended): winner = track_1 sets loser = track_2; winner =
track_2 sets loser = track_1; an id equal to neither participant sets
loser = track_1 (the only check performed is equality against track_1). -/
theorem record_match_winner_loser_rule (db : DB) (gid : String) (mid : Nat) (w : String)
    (m0 m : GameMatch) (hfind : findMatchById db mid = some m0)
    (hm : (record_match_winner db gid mid w).2 = some m) :
    (w = m0.track_id_1 → m.loser_track_id = some m0.track_id_2) ∧
    (w = m0.track_id_2 → m.loser_track_id = some m0.track_id_1) ∧
    (w ≠ m0.track_id_1 ∧ w ≠ m0.track_id_2 → m.loser_track_id = some m0.track_id_1) := by
  simp only [record_match_winner, hfind] at hm
  have hm2 := (Option.some.inj hm).symm
  subst hm2
  refine ⟨?_, ?_, ?_⟩
  · intro h
    simp [h]
  · intro h
    by_cases h1 : w = m0.track_id_1
    · simp only [h1, beq_self_eq_true, if_true]
      rw [← h, h1]
    · simp [h1]
  · intro h
    simp [h.1]

/-- Witness for C4 (amended) at the one-match store, recording "A". -/
theorem record_match_winner_loser_rule_witness :
    findMatchById dbOneMatch 1 = some (freshMatch 1 "g" 1 1 "A" "B") ∧
    (record_match_winner dbOneMatch "g" 1 "A").2 =
      some { freshMatch 1 "g" 1 1 "A" "B" with
             winner_track_id := some "A", loser_track_id := some "B" } ∧
    (("A" : String) = (freshMatch 1 "g" 1 1 "A" "B").track_id_1 →
      ({ freshMatch 1 "g" 1 1 "A" "B" with
         winner_track_id := some "A", loser_track_id := some "B" } : GameMatch).loser_track_id
        = some (freshMatch 1 "g" 1 1 "A" "B").track_id_2) :=
  ⟨by decide, by decide,
    (record_match_winner_loser_rule dbOneMatch "g" 1 "A" _ _ (by decide) (by decide)).1⟩

/-- C9 counterexample: after recording the arbitrary id "Z" as winner of
the match "A" vs "B", the stored winner field is "Z", which is neither
competing track id — the claimed membership invariant fails. -/
theorem match_winner_membership_cex :
    ((record_match_winner dbOneMatch "g" 1 "Z").2.map
      (fun m => (m.winner_track_id, m.track_id_1, m.track_id_2)))
      = some (some "Z", "A", "B") ∧
    ("Z" : String) ≠ "A" ∧ ("Z" : String) ≠ "B" :=
  ⟨by decide, by decide, by decide⟩

/-- C9 (amended): once `record_match_winner` sets the fields, the loser
is one of the two competing track ids, while the winner field is exactly
the caller-supplied id, which is not validated to be a participant (so
winner ∈ \x7btrack_1, track_2\x7d and winner ≠ loser are not guaranteed). -/
theorem record_match_winner_fields (db : DB) (gid : String) (mid : Nat) (w : String)
    (m : GameMatch) (hm : (record_match_winner db gid mid w).2 = some m) :
    m.winner_track_id = some w ∧
    (m.loser_track_id = some m.track_id_1 ∨ m.loser_track_id = some m.track_id_2) := by
  cases hfind : findMatchById db mid with
  | none =>
    rw [record_match_winner, hfind] at hm
    exact absurd hm (by simp)
  | some m0 =>
    simp only [record_match_winner, hfind] at hm
    have hm2 := (Option.some.inj hm).symm
    subst hm2
    refine ⟨rfl, ?_⟩
    by_cases h1 : w == m0.track_id_1
    · right
      simp [h1]
    · left
      simp [h1]

/-- Witness for C9 (amended) at the one-match store, recording "Z". -/
theorem record_match_winner_fields_witness :
    (record_match_winner dbOneMatch "g" 1 "Z").2 =
      some { freshMatch 1 "g" 1 1 "A" "B" with
             winner_track_id := some "Z", loser_track_id := some "A" } ∧
    ({ freshMatch 1 "g" 1 1 "A" "B" with
       winner_track_id := some "Z", loser_track_id := some "A" } : GameMatch).winner_track_id
      = some "Z" :=
  ⟨by decide, (record_match_winner_fields dbOneMatch "g" 1 "Z" _ (by decide)).1⟩

/-- C6 (code evaluated at the failing input): with two games where match
id 2 belongs to game `g2`, recording through game id `g1` does not fail
with the match-not-found error — it reports `g1`'s round as in progress
while setting winner and loser on `g2`'s match. -/
theorem record_match_cross_game_behavior :
    (record_match dbCross "g1" 2 "A").2 = .roundInProgress 1 ∧
    (record_match dbCross "g1" 2 "A").2 ≠ .matchNotFound ∧
    ((findMatchById (record_match dbCross "g1" 2 "A").1 2).map
      (fun m => (m.game_session_id, m.winner_track_id, m.loser_track_id)))
      = some ("g2", some "A", some "B") :=
  ⟨by decide, by decide, by decide⟩

/-- C1: for a pool of at least 2 tracks and a sample of k = min(|pool|, 8)
tracks drawn without replacement from the pool, `start_game` creates
exactly ⌈k/2⌉ round-1 matches numbered 1..⌈k/2⌉, where match j pairs
sample[2j] with sample[2j+1], an odd leftover is paired with sample[0]
(rematch rule), and both track ids of every match are ids of sampled
tracks. -/
theorem start_game_round1_matches (db : DB) (sid aid gid : String) (sample : List Track)
    (hpool : 2 ≤ (get_all_artist_tracks db aid).length)
    (hlen : sample.length = min (get_all_artist_tracks db aid).length 8)
    (hmem : ∀ t ∈ sample, t ∈ get_all_artist_tracks db aid) :
    ∃ ms, (start_game db sid aid gid sample).2 = .started gid 1 ms ∧
      (start_game db sid aid gid sample).1.game_matches = db.game_matches ++ ms ∧
      ms.length = (sample.length + 1) / 2 ∧
      (∀ j m, ms[j]? = some m → m.game_session_id = gid ∧ m.round_number = 1 ∧
        m.match_number = j + 1 ∧
        (∃ t1, sample[2 * j]? = some t1 ∧ m.track_id_1 = t1.track_id) ∧
        ((∃ t2, sample[2 * j + 1]? = some t2 ∧ m.track_id_2 = t2.track_id) ∨
          (sample[2 * j + 1]? = none ∧
            ∃ t0, sample[0]? = some t0 ∧ m.track_id_2 = t0.track_id)) ∧
        m.track_id_1 ∈ sample.map Track.track_id ∧
        m.track_id_2 ∈ sample.map Track.track_id) := by
  have hk : 2 ≤ sample.length := by omega
  have hno : ¬ ((get_all_artist_tracks db aid).length < 2) := by omega
  obtain ⟨t0, rest, hsample⟩ : ∃ t0 rest, sample = t0 :: rest := by
    cases sample with
    | nil => simp at hk
    | cons a l => exact ⟨a, l, rfl⟩
  subst hsample
  clear hmem hlen hk hpool
  refine ⟨(create_matches_loop (create_game_session db gid sid aid) gid 1
      (pairAll (t0 :: rest)) 1).2, ?_, ?_, ?_, ?_⟩
  · simp only [start_game]
    rw [if_neg hno]
  · simp only [start_game]
    rw [if_neg hno]
    simp only [create_matches_loop_game_matches]
    rfl
  · rw [create_matches_loop_length, pairAll_length]
  · intro j m hj
    rw [create_matches_loop_getElem?] at hj
    cases hpj : (pairAll (t0 :: rest))[j]? with
    | none => rw [hpj] at hj; exact absurd hj (by simp)
    | some p =>
      rw [hpj] at hj
      simp only [Option.map_some', Option.some.injEq] at hj
      subst hj
      rw [pairAll_getElem?] at hpj
      cases h1 : (t0 :: rest)[2 * j]? with
      | none => rw [h1] at hpj; exact absurd hpj (by simp)
      | some t1 =>
        have ht1mem : t1 ∈ t0 :: rest := List.getElem?_mem h1
        cases h2 : (t0 :: rest)[2 * j + 1]? with
        | some t2 =>
          rw [h1, h2] at hpj
          have hp := (Option.some.inj hpj).symm
          subst hp
          have ht2mem : t2 ∈ t0 :: rest := List.getElem?_mem h2
          refine ⟨rfl, rfl, by simp [mkCreatedMatch]; omega, ⟨t1, rfl, rfl⟩,
            Or.inl ⟨t2, rfl, rfl⟩, ?_, ?_⟩
          · exact List.mem_map_of_mem Track.track_id ht1mem
          · exact List.mem_map_of_mem Track.track_id ht2mem
        | none =>
          rw [h1, h2] at hpj
          have hp := (Option.some.inj hpj).symm
          subst hp
          refine ⟨rfl, rfl, by simp [mkCreatedMatch]; omega, ⟨t1, rfl, rfl⟩,
            Or.inr ⟨rfl, t0, by simp, rfl⟩, ?_, ?_⟩
          · exact List.mem_map_of_mem Track.track_id ht1mem
          · exact List.mem_map_of_mem Track.track_id (List.mem_cons_self t0 rest)

/-- Witness for C1: two stored tracks, sampled in order [A, B]; one
match A vs B is created. -/
theorem start_game_round1_matches_witness :
    2 ≤ (get_all_artist_tracks dbTwoTracks "ar").length ∧
    [trackA, trackB].length = min (get_all_artist_tracks dbTwoTracks "ar").length 8 ∧
    (∀ t ∈ [trackA, trackB], t ∈ get_all_artist_tracks dbTwoTracks "ar") ∧
    (∃ ms, (start_game dbTwoTracks "u" "ar" "g" [trackA, trackB]).2 = .started "g" 1 ms ∧
      (start_game dbTwoTracks "u" "ar" "g" [trackA, trackB]).1.game_matches =
        dbTwoTracks.game_matches ++ ms ∧
      ms.length = ([trackA, trackB].length + 1) / 2 ∧
      (∀ j m, ms[j]? = some m → m.game_session_id = "g" ∧ m.round_number = 1 ∧
        m.match_number = j + 1 ∧
        (∃ t1, [trackA, trackB][2 * j]? = some t1 ∧ m.track_id_1 = t1.track_id) ∧
        ((∃ t2, [trackA, trackB][2 * j + 1]? = some t2 ∧ m.track_id_2 = t2.track_id) ∨
          ([trackA, trackB][2 * j + 1]? = none ∧
            ∃ t0, [trackA, trackB][0]? = some t0 ∧ m.track_id_2 = t0.track_id)) ∧
        m.track_id_1 ∈ [trackA, trackB].map Track.track_id ∧
        m.track_id_2 ∈ [trackA, trackB].map Track.track_id)) :=
  ⟨by decide, by decide, by decide,
    start_game_round1_matches dbTwoTracks "u" "ar" "g" [trackA, trackB]
      (by decide) (by decide) (by decide)⟩

/-- C3: when recording the winner decides the single match of a round
and the winner id has a row in the track store, the session is marked
completed with the winner's stored id, name and artwork copied into the
session's winner fields, and the call returns Completed with the
recorded winner id. -/
theorem record_match_completes_game (db : DB) (gid : String) (mid : Nat) (w : String)
    (m : GameMatch) (g : GameSession) (wt : Track)
    (hm : (record_match_winner db gid mid w).2 = some m)
    (hg : get_game_session (record_match_winner db gid mid w).1 gid = some g)
    (hall : (get_game_matches (record_match_winner db gid mid w).1 gid m.round_number).all
      (fun rm => truthy rm.winner_track_id) = true)
    (hone : (get_game_matches (record_match_winner db gid mid w).1 gid
      m.round_number).length = 1)
    (hwt : firstTrack (record_match_winner db gid mid w).1 w = some wt) :
    (record_match db gid mid w).2 = .completed w ∧
    ∃ g2, get_game_session (record_match db gid mid w).1 gid = some g2 ∧
      g2.status = "completed" ∧ g2.winner_track_id = some wt.track_id ∧
      g2.winner_track_name = some wt.track_name ∧
      g2.winner_artwork_url = wt.artwork_url_600 := by
  have hb := record_match_completed_branch db gid mid w m g hm hg hall hone
  refine ⟨by rw [hb], ?_⟩
  refine ⟨{ g with
              winner_track_id := some wt.track_id,
              winner_track_name := some wt.track_name,
              winner_artwork_url := wt.artwork_url_600,
              status := "completed" }, ?_, rfl, rfl, rfl, rfl⟩
  rw [hb]
  simp only [finish_game_session, hg, hwt]
  simp only [get_game_session]
  exact find?_updateFirstSession_self gid
    { g with
        winner_track_id := some wt.track_id,
        winner_track_name := some wt.track_name,
        winner_artwork_url := wt.artwork_url_600,
        status := "completed" }
    (get_game_session_game_id _ _ g hg) _
    (get_game_session_isSome _ _ g hg)

/-- Witness for C3: single match A vs B, record A; the session completes
with A's stored name and artwork. -/
theorem record_match_completes_game_witness :
    (record_match dbOneMatch "g" 1 "A").2 = .completed "A" ∧
    ∃ g2, get_game_session (record_match dbOneMatch "g" 1 "A").1 "g" = some g2 ∧
      g2.status = "completed" ∧ g2.winner_track_id = some trackA.track_id ∧
      g2.winner_track_name = some trackA.track_name ∧
      g2.winner_artwork_url = trackA.artwork_url_600 :=
  record_match_completes_game dbOneMatch "g" 1 "A"
    { freshMatch 1 "g" 1 1 "A" "B" with
      winner_track_id := some "A", loser_track_id := some "B" }
    (activeSession "g") trackA
    (by decide) (by decide) (by decide) (by decide) (by decide)

/-- C10: when the final match is decided with a winner id that has no
row in the track store, the session is still marked completed but its
winner fields stay unset, and a subsequent results query succeeds and
reports empty strings for all winner fields. -/
theorem record_match_completes_game_missing_winner (db : DB) (gid : String) (mid : Nat)
    (w : String) (m : GameMatch) (g : GameSession)
    (hm : (record_match_winner db gid mid w).2 = some m)
    (hg : get_game_session (record_match_winner db gid mid w).1 gid = some g)
    (hall : (get_game_matches (record_match_winner db gid mid w).1 gid m.round_number).all
      (fun rm => truthy rm.winner_track_id) = true)
    (hone : (get_game_matches (record_match_winner db gid mid w).1 gid
      m.round_number).length = 1)
    (hmiss : firstTrack (record_match_winner db gid mid w).1 w = none)
    (hwid : g.winner_track_id = none) (hwname : g.winner_track_name = none)
    (hwart : g.winner_artwork_url = none) :
    (record_match db gid mid w).2 = .completed w ∧
    ∃ g2, get_game_session (record_match db gid mid w).1 gid = some g2 ∧
      g2.status = "completed" ∧ g2.winner_track_id = none ∧
      g2.winner_track_name = none ∧ g2.winner_artwork_url = none ∧
    ∃ dts, get_game_results (record_match db gid mid w).1 gid =
      .ok g.game_id "completed" "" "" "" none dts := by
  have hb := record_match_completed_branch db gid mid w m g hm hg hall hone
  have hfound : get_game_session (record_match db gid mid w).1 gid =
      some { g with status := "completed" } := by
    rw [hb]
    simp only [finish_game_session, hg, hmiss]
    simp only [get_game_session]
    exact find?_updateFirstSession_self gid { g with status := "completed" }
      (get_game_session_game_id _ _ g hg) _
      (get_game_session_isSome _ _ g hg)
  refine ⟨by rw [hb], ?_⟩
  refine ⟨{ g with status := "completed" }, hfound, rfl, hwid, hwname, hwart, ?_⟩
  refine ⟨(if ((get_all_game_matches (record_match db gid mid w).1 gid).filterMap
      (fun x => truthyVal x.loser_track_id)).isEmpty then []
    else (((record_match db gid mid w).1.tracks.filter (fun t =>
      ((get_all_game_matches (record_match db gid mid w).1 gid).filterMap
        (fun x => truthyVal x.loser_track_id)).contains t.track_id)).map toGameTrack)), ?_⟩
  rw [get_game_results_of_completed _ _ _ hfound rfl]
  simp [hwid, hwname, hwart, truthy]

/-- Witness for C10: single match A vs B over an empty track store;
recording A completes the session with unset winner fields, and the
results query reports empty winner strings. -/
theorem record_match_completes_game_missing_winner_witness :
    (record_match dbNoStore "g" 1 "A").2 = .completed "A" ∧
    ∃ g2, get_game_session (record_match dbNoStore "g" 1 "A").1 "g" = some g2 ∧
      g2.status = "completed" ∧ g2.winner_track_id = none ∧
      g2.winner_track_name = none ∧ g2.winner_artwork_url = none ∧
    ∃ dts, get_game_results (record_match dbNoStore "g" 1 "A").1 "g" =
      .ok (activeSession "g").game_id "completed" "" "" "" none dts :=
  record_match_completes_game_missing_winner dbNoStore "g" 1 "A"
    { freshMatch 1 "g" 1 1 "A" "B" with
      winner_track_id := some "A", loser_track_id := some "B" }
    (activeSession "g")
    (by decide) (by decide) (by decide) (by decide) (by decide)
    (by decide) (by decide) (by decide)

/-- C2: when recording the winner completes a round of N > 1 matches and
every winner id of that round has a row in the track store, `record_match`
creates exactly ⌈N/2⌉ matches in round N+1 numbered 1..⌈N/2⌉, where match
j pairs winners[2j] with winners[2j+1] (winners listed in match-number
order), an odd leftover is paired with winners[0] (same rematch rule as
`start_game`), and the call returns NextRound with the new round number
and the created matches. -/
theorem record_match_next_round (db : DB) (gid : String) (mid : Nat) (w : String)
    (m : GameMatch) (g : GameSession) (N : Nat)
    (hm : (record_match_winner db gid mid w).2 = some m)
    (hg : get_game_session (record_match_winner db gid mid w).1 gid = some g)
    (hall : (get_game_matches (record_match_winner db gid mid w).1 gid m.round_number).all
      (fun rm => truthy rm.winner_track_id) = true)
    (hN : (get_game_matches (record_match_winner db gid mid w).1 gid
      m.round_number).length = N)
    (hN1 : 1 < N)
    (hfound : ∀ wid ∈ (get_game_matches (record_match_winner db gid mid w).1 gid
        m.round_number).filterMap (fun rm => rm.winner_track_id),
      (lastTrack (record_match_winner db gid mid w).1 wid).isSome = true) :
    ∃ nm, (record_match db gid mid w).2 = .nextRound (m.round_number + 1) nm ∧
      nm.length = (N + 1) / 2 ∧
      (∀ j mj, nm[j]? = some mj → mj.game_session_id = gid ∧
        mj.round_number = m.round_number + 1 ∧ mj.match_number = j + 1 ∧
        (∃ w1, ((get_game_matches (record_match_winner db gid mid w).1 gid
            m.round_number).filterMap (fun rm => rm.winner_track_id))[2 * j]? = some w1 ∧
          mj.track_id_1 = w1) ∧
        ((∃ w2, ((get_game_matches (record_match_winner db gid mid w).1 gid
            m.round_number).filterMap (fun rm => rm.winner_track_id))[2 * j + 1]? = some w2 ∧
          mj.track_id_2 = w2) ∨
         (((get_game_matches (record_match_winner db gid mid w).1 gid
            m.round_number).filterMap (fun rm => rm.winner_track_id))[2 * j + 1]? = none ∧
          ∃ w0, ((get_game_matches (record_match_winner db gid mid w).1 gid
            m.round_number).filterMap (fun rm => rm.winner_track_id))[0]? = some w0 ∧
          mj.track_id_2 = w0))) := by
  have hne : ((get_game_matches (record_match_winner db gid mid w).1 gid
      m.round_number).length == 1) = false := by
    rw [hN]
    simp
    omega
  have hb := record_match_next_branch db gid mid w m g hm hg hall hne
  set db1 := (record_match_winner db gid mid w).1 with hdb1def
  set rmx := get_game_matches db1 gid m.round_number with hrmdef
  set winners := rmx.filterMap (fun rm => rm.winner_track_id) with hwdef
  have hwlen : winners.length = N := by
    rw [hwdef, filterMap_eq_map_of_forall _ (fun rm => rm.winner_track_id.getD "")]
    · rw [List.length_map, hN]
    · intro x hx
      have hx2 := List.all_eq_true.mp hall x hx
      cases hopt : x.winner_track_id with
      | none => rw [hopt] at hx2; exact absurd hx2 (by simp [truthy])
      | some s => rfl
  have htid : ∀ wid ∈ winners, ((lastTrack db1 wid).getD defaultTrack).track_id = wid := by
    intro wid hwid
    rcases Option.isSome_iff_exists.mp (hfound wid hwid) with ⟨t, ht⟩
    rw [ht, Option.getD_some]
    exact lastTrack_track_id _ _ _ ht
  have hwt_eq : winners.filterMap (fun wid => lastTrack db1 wid) =
      winners.map (fun wid => (lastTrack db1 wid).getD defaultTrack) := by
    refine filterMap_eq_map_of_forall _ _ _ (fun wid hwid => ?_)
    rcases Option.isSome_iff_exists.mp (hfound wid hwid) with ⟨t, ht⟩
    rw [ht, Option.getD_some]
  obtain ⟨w0, wrest, hwcons⟩ : ∃ w0 wrest, winners = w0 :: wrest := by
    cases hc : winners with
    | nil => rw [hc] at hwlen; simp at hwlen; omega
    | cons a l => exact ⟨a, l, rfl⟩
  refine ⟨_, by rw [hb], ?_, ?_⟩
  · rw [create_matches_loop_length, pairAll_length, hwt_eq, List.length_map, hwlen]
  · intro j mj hj
    rw [create_matches_loop_getElem?] at hj
    rw [hwt_eq, hwcons, List.map_cons] at hj
    cases hpj : (pairAll ((lastTrack db1 w0).getD defaultTrack ::
        wrest.map (fun wid => (lastTrack db1 wid).getD defaultTrack)))[j]? with
    | none => rw [hpj] at hj; exact absurd hj (by simp)
    | some p =>
      rw [hpj, Option.map_some', Option.some.injEq] at hj
      subst hj
      rw [pairAll_getElem?] at hpj
      have hmapeq : ((lastTrack db1 w0).getD defaultTrack ::
          wrest.map (fun wid => (lastTrack db1 wid).getD defaultTrack)) =
          winners.map (fun wid => (lastTrack db1 wid).getD defaultTrack) := by
        rw [hwcons, List.map_cons]
      rw [hmapeq] at hpj
      cases h1 : winners[2 * j]? with
      | none =>
        rw [List.getElem?_map, h1] at hpj
        exact absurd hpj (by simp)
      | some w1 =>
        have h1m : (winners.map (fun wid => (lastTrack db1 wid).getD defaultTrack))[2 * j]? =
            some ((lastTrack db1 w1).getD defaultTrack) := by
          rw [List.getElem?_map, h1, Option.map_some']
        have hw1mem : w1 ∈ winners := List.getElem?_mem h1
        cases h2 : winners[2 * j + 1]? with
        | some w2 =>
          have h2m : (winners.map
              (fun wid => (lastTrack db1 wid).getD defaultTrack))[2 * j + 1]? =
              some ((lastTrack db1 w2).getD defaultTrack) := by
            rw [List.getElem?_map, h2, Option.map_some']
          rw [h1m, h2m] at hpj
          have hp := (Option.some.inj hpj).symm
          subst hp
          have hw2mem : w2 ∈ winners := List.getElem?_mem h2
          refine ⟨rfl, rfl, by simp [mkCreatedMatch]; omega,
            ⟨w1, rfl, by simpa [mkCreatedMatch] using htid w1 hw1mem⟩,
            Or.inl ⟨w2, rfl, by simpa [mkCreatedMatch] using htid w2 hw2mem⟩⟩
        | none =>
          have h2m : (winners.map
              (fun wid => (lastTrack db1 wid).getD defaultTrack))[2 * j + 1]? = none := by
            rw [List.getElem?_map, h2, Option.map_none']
          rw [h1m, h2m] at hpj
          have hp := (Option.some.inj hpj).symm
          subst hp
          have hw0mem : w0 ∈ winners := by rw [hwcons]; exact List.mem_cons_self w0 wrest
          have h0 : winners[0]? = some w0 := by rw [hwcons]; simp
          refine ⟨rfl, rfl, by simp [mkCreatedMatch]; omega,
            ⟨w1, rfl, by simpa [mkCreatedMatch] using htid w1 hw1mem⟩,
            Or.inr ⟨rfl, w0, h0, by simpa [mkCreatedMatch] using htid w0 hw0mem⟩⟩

/-- Witness for C2: round 1 of game `g` holds matches (A vs B, winner A)
and (C vs D); recording C as winner of match 2 completes the round and
creates one round-2 match pairing A against C. -/
theorem record_match_next_round_witness :
    (∃ nm, (record_match dbRoundOfTwo "g" 2 "C").2 = .nextRound 2 nm ∧
      nm.length = (2 + 1) / 2 ∧
      (∀ j mj, nm[j]? = some mj → mj.game_session_id = "g" ∧
        mj.round_number = 2 ∧ mj.match_number = j + 1 ∧
        (∃ w1, ((get_game_matches (record_match_winner dbRoundOfTwo "g" 2 "C").1 "g"
            1).filterMap (fun rm => rm.winner_track_id))[2 * j]? = some w1 ∧
          mj.track_id_1 = w1) ∧
        ((∃ w2, ((get_game_matches (record_match_winner dbRoundOfTwo "g" 2 "C").1 "g"
            1).filterMap (fun rm => rm.winner_track_id))[2 * j + 1]? = some w2 ∧
          mj.track_id_2 = w2) ∨
         (((get_game_matches (record_match_winner dbRoundOfTwo "g" 2 "C").1 "g"
            1).filterMap (fun rm => rm.winner_track_id))[2 * j + 1]? = none ∧
          ∃ w0, ((get_game_matches (record_match_winner dbRoundOfTwo "g" 2 "C").1 "g"
            1).filterMap (fun rm => rm.winner_track_id))[0]? = some w0 ∧
          mj.track_id_2 = w0)))) :=
  record_match_next_round dbRoundOfTwo "g" 2 "C"
    { freshMatch 2 "g" 1 2 "C" "D" with
      winner_track_id := some "C", loser_track_id := some "D" }
    (activeSession "g") 2
    (by decide) (by decide) (by decide) (by decide) (by decide) (by decide)

theorem record_match_winner_sessions (db : DB) (gid : String) (mid : Nat) (w : String) :
    (record_match_winner db gid mid w).1.sessions = db.sessions := by
  unfold record_match_winner
  cases findMatchById db mid <;> rfl

theorem record_match_winner_tracks (db : DB) (gid : String) (mid : Nat) (w : String) :
    (record_match_winner db gid mid w).1.tracks = db.tracks := by
  unfold record_match_winner
  cases findMatchById db mid <;> rfl

theorem record_match_sessions_shape (db : DB) (gid : String) (mid : Nat) (w : String) :
    (record_match db gid mid w).1.sessions = db.sessions ∨
    (∃ g g2, get_game_session (record_match_winner db gid mid w).1 gid = some g ∧
      g2.status = "completed" ∧ g2.game_id = g.game_id ∧
      (record_match db gid mid w).1.sessions = updateFirstSession gid g2 db.sessions) := by
  cases hm : (record_match_winner db gid mid w).2 with
  | none =>
    left
    simp [record_match, hm, record_match_winner_sessions]
  | some m =>
    cases hg : get_game_session (record_match_winner db gid mid w).1 gid with
    | none =>
      left
      simp [record_match, hm, hg, record_match_winner_sessions]
    | some g =>
      cases hall : (get_game_matches (record_match_winner db gid mid w).1 gid
          m.round_number).all (fun rm => truthy rm.winner_track_id) with
      | false =>
        left
        simp [record_match, hm, hg, hall, record_match_winner_sessions]
      | true =>
        cases hlen : ((get_game_matches (record_match_winner db gid mid w).1 gid
            m.round_number).length == 1) with
        | false =>
          left
          simp [record_match, hm, hg, hall, hlen, create_matches_loop_sessions,
            record_match_winner_sessions]
        | true =>
          right
          have hone : (get_game_matches (record_match_winner db gid mid w).1 gid
              m.round_number).length = 1 := by simpa using hlen
          have hb := record_match_completed_branch db gid mid w m g hm hg hall hone
          cases hft : firstTrack (record_match_winner db gid mid w).1 w with
          | none =>
            refine ⟨g, { g with status := "completed" }, rfl, rfl, rfl, ?_⟩
            rw [hb]
            simp only [finish_game_session, hg, hft]
            rw [← record_match_winner_sessions db gid mid w]
          | some wt =>
            refine ⟨g, { g with
                           winner_track_id := some wt.track_id,
                           winner_track_name := some wt.track_name,
                           winner_artwork_url := wt.artwork_url_600,
                           status := "completed" }, rfl, rfl, rfl, ?_⟩
            rw [hb]
            simp only [finish_game_session, hg, hft]
            rw [← record_match_winner_sessions db gid mid w]

/-- C8: engine steps never reverse completion: if the session with id
`gid` is completed before a step, it is completed after it; and when a
step changes a session's status at all, the new status is "completed".
Hence the only status transition is active → completed, taken once. -/
theorem session_status_monotone (db db2 : DB) (h : EngineStep db db2) (gid : String)
    (s s2 : GameSession)
    (hs : get_game_session db gid = some s)
    (hs2 : get_game_session db2 gid = some s2) :
    (s.status = "completed" → s2.status = "completed") ∧
    (s2.status ≠ s.status → s2.status = "completed") := by
  have hsame : db2.sessions = db.sessions → s2 = s := by
    intro hsess
    have : get_game_session db2 gid = get_game_session db gid := by
      simp only [get_game_session, hsess]
    rw [this, hs] at hs2
    exact (Option.some.inj hs2).symm
  cases h with
  | start sid aid gid2 sample hlen hmem =>
    by_cases hlt : (get_all_artist_tracks db aid).length < 2
    · have hdb : (start_game db sid aid gid2 sample).1 = db := by
        simp [start_game, hlt]
      have hval := hsame (by rw [hdb])
      subst hval
      exact ⟨fun hh => hh, fun hne => absurd rfl hne⟩
    · have hsess : (start_game db sid aid gid2 sample).1.sessions =
          db.sessions ++
            [{ game_id := gid2, user_session_id := sid, artist_id := aid,
               status := "active", winner_track_id := none, winner_track_name := none,
               winner_artwork_url := none, total_rounds := 3 }] := by
        simp only [start_game]
        rw [if_neg hlt]
        rw [create_matches_loop_sessions]
        rfl
      have hfind : get_game_session (start_game db sid aid gid2 sample).1 gid = some s := by
        simp only [get_game_session, hsess]
        exact find?_append_of_some _ db.sessions _ s hs
      rw [hfind] at hs2
      have hval := (Option.some.inj hs2).symm
      subst hval
      exact ⟨fun hh => hh, fun hne => absurd rfl hne⟩
  | record gid2 mid w =>
    rcases record_match_sessions_shape db gid2 mid w with hsess | ⟨g, g2, hgf, hgst, hgid, hsess⟩
    · have hval := hsame hsess
      subst hval
      exact ⟨fun hh => hh, fun hne => absurd rfl hne⟩
    · by_cases hgg : gid = gid2
      · subst hgg
        have hgid2 : g.game_id = gid :=
          get_game_session_game_id (record_match_winner db gid mid w).1 gid g hgf
        have hfind : get_game_session (record_match db gid mid w).1 gid = some g2 := by
          simp only [get_game_session, hsess]
          refine find?_updateFirstSession_self gid g2 (by rw [hgid, hgid2]) _ ?_
          have hconv : db.sessions.find? (fun x => x.game_id == gid) = some g := by
            have hsess1 := record_match_winner_sessions db gid mid w
            have hgf2 : (record_match_winner db gid mid w).1.sessions.find?
                (fun x => x.game_id == gid) = some g := hgf
            rwa [hsess1] at hgf2
          rw [hconv]
          rfl
        rw [hfind] at hs2
        have hval := (Option.some.inj hs2).symm
        subst hval
        exact ⟨fun _ => hgst, fun _ => hgst⟩
      · have hfind : get_game_session (record_match db gid2 mid w).1 gid =
            get_game_session db gid := by
          simp only [get_game_session, hsess]
          have hgid2 : g.game_id = gid2 :=
            get_game_session_game_id (record_match_winner db gid2 mid w).1 gid2 g hgf
          exact find?_updateFirstSession_ne gid2 g2 (by rw [hgid, hgid2]) gid hgg _
        rw [hfind, hs] at hs2
        have hval := (Option.some.inj hs2).symm
        subst hval
        exact ⟨fun hh => hh, fun hne => absurd rfl hne⟩

/-- Witness for C8: one record step completes the single-match game; the
session goes from active to completed, and the theorem's conclusions
hold at that step. -/
theorem session_status_monotone_witness :
    get_game_session dbOneMatch "g" = some (activeSession "g") ∧
    get_game_session (record_match dbOneMatch "g" 1 "A").1 "g" =
      some finishedSessionA ∧
    (((activeSession "g").status = "completed" →
        finishedSessionA.status = "completed") ∧
      (finishedSessionA.status ≠ (activeSession "g").status →
        finishedSessionA.status = "completed")) :=
  ⟨by decide, by decide,
    session_status_monotone dbOneMatch (record_match dbOneMatch "g" 1 "A").1
      (EngineStep.record dbOneMatch "g" 1 "A") "g" (activeSession "g")
      finishedSessionA (by decide) (by decide)⟩

theorem nodup_subset_length_le {l1 l2 : List String} (h1 : l1.Nodup) (h2 : l1 ⊆ l2) :
    l1.length ≤ l2.length := by
  calc l1.length = l1.toFinset.card := (List.toFinset_card_of_nodup h1).symm
  _ ≤ l2.toFinset.card := Finset.card_le_card (fun x hx => by
      rw [List.mem_toFinset] at hx ⊢
      exact h2 hx)
  _ ≤ l2.length := l2.toFinset_card_le

/-- C7 counterexample: in the reachable three-track tournament (round 1:
A vs B and C vs A by the rematch rule; round 2: A vs C), three matches
are played, track A is the recorded loser of two of them, and getResults
returns only two dismissed tracks — both the claimed count equality and
the at-most-one-loss property fail. -/
theorem get_game_results_count_cex :
    (get_all_game_matches stepR3.1 "g").length = 3 ∧
    ((get_all_game_matches stepR3.1 "g").filter
      (fun mm => mm.loser_track_id == some "A")).length = 2 ∧
    get_game_results stepR3.1 "g" =
      .ok "g" "completed" "C" "nc" "" none [toGameTrack trackA, toGameTrack trackB] ∧
    ([toGameTrack trackA, toGameTrack trackB] : List GameTrack).length ≠
      (get_all_game_matches stepR3.1 "g").length :=
  ⟨by decide, by decide, by decide, by decide⟩

/-- C7 (amended): for a completed session, getResults succeeds and a
track appears in its dismissed list exactly when it is a track-store row
whose id is the recorded loser id of some match of the session (so the
loser of every match that is present in the store is included); and when
the store's track ids are distinct, the dismissed count is at most the
total number of matches played — equality can fail because the odd-count
rematch rule lets a track lose more than once while the dismissed set
lists it once. -/
theorem get_game_results_dismissed (db : DB) (gid : String) (g : GameSession)
    (hg : get_game_session db gid = some g) (hst : g.status = "completed") :
    ∃ wprev dts, get_game_results db gid = .ok g.game_id g.status
        (g.winner_track_id.getD "") (g.winner_track_name.getD "")
        (g.winner_artwork_url.getD "") wprev dts ∧
      (∀ gt, gt ∈ dts ↔ ∃ t ∈ db.tracks, toGameTrack t = gt ∧
        ∃ mm ∈ get_all_game_matches db gid,
          truthyVal mm.loser_track_id = some t.track_id) ∧
      ((db.tracks.map Track.track_id).Nodup →
        dts.length ≤ (get_all_game_matches db gid).length) := by
  refine ⟨_, _, get_game_results_of_completed db gid g hg hst, ?_, ?_⟩
  · intro gt
    constructor
    · intro hgt
      by_cases hempty : (((get_all_game_matches db gid).filterMap
          (fun x => truthyVal x.loser_track_id)).isEmpty = true)
      · rw [if_pos hempty] at hgt
        exact absurd hgt (List.not_mem_nil gt)
      · rw [if_neg hempty] at hgt
        rcases List.mem_map.mp hgt with ⟨t, htF, rfl⟩
        rcases List.mem_filter.mp htF with ⟨ht, hcont⟩
        have hmemL : t.track_id ∈ (get_all_game_matches db gid).filterMap
            (fun x => truthyVal x.loser_track_id) :=
          List.mem_of_elem_eq_true hcont
        rcases List.mem_filterMap.mp hmemL with ⟨mm, hmm, heq⟩
        exact ⟨t, ht, rfl, mm, hmm, heq⟩
    · rintro ⟨t, ht, rfl, mm, hmm, heq⟩
      have hmemL : t.track_id ∈ (get_all_game_matches db gid).filterMap
          (fun x => truthyVal x.loser_track_id) :=
        List.mem_filterMap.mpr ⟨mm, hmm, heq⟩
      have hnonempty : ¬ (((get_all_game_matches db gid).filterMap
          (fun x => truthyVal x.loser_track_id)).isEmpty = true) := by
        intro habs
        rw [List.isEmpty_iff] at habs
        rw [habs] at hmemL
        exact absurd hmemL (List.not_mem_nil t.track_id)
      rw [if_neg hnonempty]
      exact List.mem_map_of_mem toGameTrack
        (List.mem_filter.mpr ⟨ht, List.elem_eq_true_of_mem hmemL⟩)
  · intro hnd
    by_cases hempty : ((get_all_game_matches db gid).filterMap
        (fun x => truthyVal x.loser_track_id)).isEmpty = true
    · rw [if_pos hempty]
      simp
    · rw [if_neg hempty]
      rw [List.length_map]
      have hfsub : (db.tracks.filter (fun t => ((get_all_game_matches db gid).filterMap
          (fun x => truthyVal x.loser_track_id)).contains t.track_id)).length ≤
          ((get_all_game_matches db gid).filterMap
            (fun x => truthyVal x.loser_track_id)).dedup.length := by
        have hlen : (db.tracks.filter (fun t => ((get_all_game_matches db gid).filterMap
            (fun x => truthyVal x.loser_track_id)).contains t.track_id)).length =
            ((db.tracks.filter (fun t => ((get_all_game_matches db gid).filterMap
              (fun x => truthyVal x.loser_track_id)).contains t.track_id)).map
                Track.track_id).length := (List.length_map _ _).symm
        rw [hlen]
        refine nodup_subset_length_le ?_ ?_
        · exact List.Nodup.sublist (List.Sublist.map Track.track_id
            (List.filter_sublist db.tracks)) hnd
        · intro x hx
          rcases List.mem_map.mp hx with ⟨t, htf, rfl⟩
          have hcont := (List.mem_filter.mp htf).2
          rw [List.mem_dedup]
          exact List.mem_of_elem_eq_true hcont
      calc (db.tracks.filter (fun t => ((get_all_game_matches db gid).filterMap
            (fun x => truthyVal x.loser_track_id)).contains t.track_id)).length ≤
          ((get_all_game_matches db gid).filterMap
            (fun x => truthyVal x.loser_track_id)).dedup.length := hfsub
      _ ≤ ((get_all_game_matches db gid).filterMap
            (fun x => truthyVal x.loser_track_id)).length :=
          (List.dedup_sublist _).length_le
      _ ≤ (get_all_game_matches db gid).length := List.length_filterMap_le _ _

/-- Witness for C7 (amended) at the completed three-track tournament. -/
theorem get_game_results_dismissed_witness :
    get_game_session stepR3.1 "g" = some finishedSessionC ∧
    finishedSessionC.status = "completed" ∧
    (∃ wprev dts, get_game_results stepR3.1 "g" = .ok finishedSessionC.game_id
        finishedSessionC.status (finishedSessionC.winner_track_id.getD "")
        (finishedSessionC.winner_track_name.getD "")
        (finishedSessionC.winner_artwork_url.getD "") wprev dts ∧
      (∀ gt, gt ∈ dts ↔ ∃ t ∈ stepR3.1.tracks, toGameTrack t = gt ∧
        ∃ mm ∈ get_all_game_matches stepR3.1 "g",
          truthyVal mm.loser_track_id = some t.track_id) ∧
      ((stepR3.1.tracks.map Track.track_id).Nodup →
        dts.length ≤ (get_all_game_matches stepR3.1 "g").length)) :=
  ⟨by decide, by decide,
    get_game_results_dismissed stepR3.1 "g" finishedSessionC (by decide) (by decide)⟩

end MusicData
